import Mathlib

/-!
# Verification of the Lumina ESP32 LED controller firmware

Shallow embedding of `src/led_controller/led_controller.ino`.

Modelling conventions:
* The JSON layer (ArduinoJson's `deserializeJson` / `serializeJson`) is an
  external collaborator; payloads are modelled at the structured-document
  level by `JsonVal`, and a decode failure is the `none` input to
  `processCommand`.
* The LED strip driver (FastLED) is external; a render is modelled as an
  emitted `REvent` (blanking the strip, a solid color/brightness render, or
  one effect frame), and the pixel colors the `usa` effect assigns are
  modelled by `effectUSAColor`.
* Machine integers: the C `int` globals are `Int`; the `uint8_t` hue cursor
  is a `Nat` reduced `% 256` where the code increments it; the `uint64_t`
  chip id is a `Nat` with explicit `% 2 ^ 32` for the `uint32_t` cast.
-/

/-- `#define NUM_LEDS 200` (line 23). -/
def NUM_LEDS : Nat := 200

/-- Structured JSON documents, the result of a successful `deserializeJson`. -/
inductive JsonVal where
  | null : JsonVal
  | bool (b : Bool) : JsonVal
  | int (n : Int) : JsonVal
  | str (s : String) : JsonVal
  | obj (fields : List (String × JsonVal)) : JsonVal

/-- Key lookup in a JSON object's field list (first match wins). -/
def jsonLookup : List (String × JsonVal) → String → Option JsonVal
  | [], _ => none
  | (k, v) :: rest, key => if k = key then some v else jsonLookup rest key

/-- `doc[key]` on a document: a value only when the document is an object
containing the key. -/
def getKey : JsonVal → String → Option JsonVal
  | .obj fields, key => jsonLookup fields key
  | _, _ => none

/-- `doc[key]`, with JSON null standing for a missing binding. -/
def getKeyD (doc : JsonVal) (key : String) : JsonVal :=
  (getKey doc key).getD .null

/-- ArduinoJson `doc.containsKey(key)`. -/
def containsKey (doc : JsonVal) (key : String) : Bool :=
  (getKey doc key).isSome

/-- ArduinoJson `as<bool>()`: booleans directly, numbers by zero test,
anything else false. -/
def jsonAsBool : JsonVal → Bool
  | .bool b => b
  | .int n => n != 0
  | _ => false

/-- ArduinoJson `as<int>()`: integers directly, booleans as 0/1, anything
else 0. -/
def jsonAsInt : JsonVal → Int
  | .int n => n
  | .bool b => if b then 1 else 0
  | _ => 0

/-- ArduinoJson `as<String>()` on the payload shapes the firmware sees:
strings directly, scalars by printing. -/
def jsonAsString : JsonVal → String
  | .str s => s
  | .bool b => if b then "true" else "false"
  | .int n => toString n
  | _ => ""

/-- ArduinoJson `variant | default`: the stored value when it is an
integer, the default otherwise (also when the key is missing). -/
def jsonIntOr (v : Option JsonVal) (d : Int) : Int :=
  match v with
  | some (.int n) => n
  | _ => d

/-- The mutable device state globals (lines 48–53). -/
structure DeviceState where
  powerOn : Bool
  currentBrightness : Int
  currentR : Int
  currentG : Int
  currentB : Int
  currentEffect : String
deriving DecidableEq, Repr

/-- The effect animation state globals (lines 64–66) together with the
`static bool on` of `effectStrobe` (line 195). -/
structure EffectState where
  effectHue : Nat
  effectPos : Int
  effectDirection : Int
  strobeOn : Bool
deriving DecidableEq, Repr

/-- Boot values of the device state globals (lines 48–53). -/
def bootState : DeviceState :=
  { powerOn := true, currentBrightness := 100,
    currentR := 255, currentG := 255, currentB := 255,
    currentEffect := "none" }

/-- Boot values of the effect animation globals (lines 64–66, 195). -/
def bootFx : EffectState :=
  { effectHue := 0, effectPos := 0, effectDirection := 1, strobeOn := false }

/-- Observable render actions on the strip driver. -/
inductive REvent where
  | blank : REvent
  | solid (r g b brightness : Int) : REvent
  | frame (name : String) : REvent
deriving DecidableEq, Repr

/-- `updateLeds()` (lines 109–113): a solid render of the current color at
the current brightness. -/
def updateLedsEvent (s : DeviceState) : REvent :=
  .solid s.currentR s.currentG s.currentB s.currentBrightness

/-- `processCommand` lines 352–365: the `power` key. -/
def applyPower (doc : JsonVal) (s : DeviceState) : DeviceState × List REvent :=
  if containsKey doc "power" then
    let s' := { s with powerOn := jsonAsBool (getKeyD doc "power") }
    (s', [if s'.powerOn then updateLedsEvent s' else .blank])
  else (s, [])

/-- `processCommand` lines 368–384: the `color` key, merging each present
channel over the previous value via ArduinoJson `|`. -/
def applyColor (doc : JsonVal) (s : DeviceState) : DeviceState × List REvent :=
  if containsKey doc "color" then
    let color := getKeyD doc "color"
    let s' := { s with
      currentR := jsonIntOr (getKey color "r") s.currentR,
      currentG := jsonIntOr (getKey color "g") s.currentG,
      currentB := jsonIntOr (getKey color "b") s.currentB }
    (s', [updateLedsEvent s'])
  else (s, [])

/-- `processCommand` lines 387–396: the `brightness` key. -/
def applyBrightness (doc : JsonVal) (s : DeviceState) : DeviceState × List REvent :=
  if containsKey doc "brightness" then
    let s' := { s with currentBrightness := jsonAsInt (getKeyD doc "brightness") }
    (s', [updateLedsEvent s'])
  else (s, [])

/-- `processCommand` lines 399–414: the `effect` key; resets `effectHue` and
`effectPos` (but not `effectDirection` or the strobe toggle), and renders the
solid color immediately when the new effect is `"none"`. -/
def applyEffect (doc : JsonVal) (s : DeviceState) (es : EffectState) :
    DeviceState × EffectState × List REvent :=
  if containsKey doc "effect" then
    let s' := { s with currentEffect := jsonAsString (getKeyD doc "effect") }
    let es' := { es with effectHue := 0, effectPos := 0 }
    (s', es', if s'.currentEffect = "none" then [updateLedsEvent s'] else [])
  else (s, es, [])

/-- Result of one `processCommand` call: final globals, renders performed,
and whether `publishState()` was reached. -/
structure CmdResult where
  state : DeviceState
  fx : EffectState
  events : List REvent
  published : Bool
deriving DecidableEq, Repr

/-- `processCommand(message)` (lines 336–418), taking the result of
`deserializeJson` (`none` = parse error, which returns before any state
write, render, or publish). -/
def processCommand (doc? : Option JsonVal) (s : DeviceState) (es : EffectState) :
    CmdResult :=
  match doc? with
  | none => ⟨s, es, [], false⟩
  | some doc =>
    let p1 := applyPower doc s
    let p2 := applyColor doc p1.1
    let p3 := applyBrightness doc p2.1
    let p4 := applyEffect doc p3.1 es
    ⟨p4.1, p4.2.1, p1.2 ++ p2.2 ++ p3.2 ++ p4.2.2, true⟩

/-- The thirteen renderer names `runEffect` dispatches on (lines 265–313),
in dispatch order. -/
def effectCatalog : List String :=
  ["rainbow", "breathing", "chase", "sparkle", "fire", "confetti", "cylon",
   "strobe", "ocean", "aurora", "candle", "christmas", "usa"]

/-- The spec's effect catalog (§6): the renderer names plus the literal
`"none"`. -/
def specEffectCatalog : List String := "none" :: effectCatalog

/-- `effectChase` cursor update (lines 137–138): advance and wrap at the
strip end. -/
def effectChaseStep (es : EffectState) : EffectState :=
  let pos := es.effectPos + 1
  { es with effectPos := if pos ≥ (NUM_LEDS : Int) then 0 else pos }

/-- `effectCylon` cursor update (lines 188–191): advance by the direction,
reversing the direction at either strip end. -/
def effectCylonStep (es : EffectState) : EffectState :=
  let pos := es.effectPos + es.effectDirection
  if pos ≥ (NUM_LEDS : Int) - 1 ∨ pos ≤ 0 then
    { es with effectPos := pos, effectDirection := -es.effectDirection }
  else
    { es with effectPos := pos }

/-- The pixel index `effectCylon` writes (`leds[effectPos] = ...`, line 185):
the position cursor as it stands when the renderer is entered. -/
def cylonWriteIndex (es : EffectState) : Int := es.effectPos

/-- Result of one `runEffect()` call: updated cursors/toggles, whether a
frame was drawn (`FastLED.show()` reached), and the branch's `delay`. -/
structure EffectTick where
  fx : EffectState
  rendered : Bool
  delayMs : Nat
deriving DecidableEq, Repr

/-- `runEffect()` (lines 265–313): dispatch on the current effect name.
Only the shared-cursor/toggle updates are modelled as state; every matched
branch draws exactly one frame, and an unmatched name falls through the
`else if` chain doing nothing at all. -/
def runEffectStep (name : String) (es : EffectState) : EffectTick :=
  if name = "rainbow" then
    ⟨{ es with effectHue := (es.effectHue + 1) % 256 }, true, 20⟩
  else if name = "breathing" then ⟨es, true, 10⟩
  else if name = "chase" then ⟨effectChaseStep es, true, 30⟩
  else if name = "sparkle" then ⟨es, true, 30⟩
  else if name = "fire" then ⟨es, true, 30⟩
  else if name = "confetti" then
    ⟨{ es with effectHue := (es.effectHue + 1) % 256 }, true, 20⟩
  else if name = "cylon" then ⟨effectCylonStep es, true, 20⟩
  else if name = "strobe" then ⟨{ es with strobeOn := !es.strobeOn }, true, 80⟩
  else if name = "ocean" then ⟨es, true, 20⟩
  else if name = "aurora" then
    ⟨{ es with effectHue := (es.effectHue + 1) % 256 }, true, 30⟩
  else if name = "candle" then ⟨es, true, 50⟩
  else if name = "christmas" then ⟨es, true, 30⟩
  else if name = "usa" then ⟨es, true, 30⟩
  else ⟨es, false, 0⟩

/-- Result of one `loop()` iteration. -/
structure LoopResult where
  state : DeviceState
  fx : EffectState
  events : List REvent
  ranEffect : Bool
deriving DecidableEq, Repr

/-- The tail of one `loop()` iteration (lines 567–570): `runEffect()` is
called exactly when the power is on and the current effect is not
`"none"`. -/
def loopTick (r : CmdResult) : LoopResult :=
  if r.state.powerOn && !(r.state.currentEffect == "none") then
    let t := runEffectStep r.state.currentEffect r.fx
    ⟨r.state, t.fx,
      r.events ++ (if t.rendered then [REvent.frame r.state.currentEffect] else []),
      true⟩
  else ⟨r.state, r.fx, r.events, false⟩

/-- One `loop()` iteration (lines 553–571): `mqtt.loop()` delivers at most
one pending message to `processCommand` (via `onMqttMessage`), then the
effect-tick guard runs on the resulting state. -/
def loopStep (msg? : Option (Option JsonVal)) (s : DeviceState)
    (es : EffectState) : LoopResult :=
  loopTick (match msg? with
    | none => ⟨s, es, [], false⟩
    | some doc? => processCommand doc? s es)

/-- `getStateJson()` (lines 318–331) at the structured-document level:
the state payload, fields in insertion order. -/
def getStateJson (id : String) (s : DeviceState) : JsonVal :=
  .obj [("device_id", .str id),
        ("power", .bool s.powerOn),
        ("brightness", .int s.currentBrightness),
        ("color", .obj [("r", .int s.currentR),
                        ("g", .int s.currentG),
                        ("b", .int s.currentB)]),
        ("effect", .str s.currentEffect)]

/-- Modelled from the spec: the firmware has no decoder for its own state
payload, so the decode direction of the §8 round-trip law is taken from the
§6 state payload schema — read `power`, `brightness`, the three `color`
channels, and `effect` back into a `DeviceState`. -/
def decodeStateDoc (doc : JsonVal) : Option DeviceState :=
  match getKey doc "power", getKey doc "brightness",
        getKey (getKeyD doc "color") "r", getKey (getKeyD doc "color") "g",
        getKey (getKeyD doc "color") "b", getKey doc "effect" with
  | some (.bool p), some (.int br), some (.int r), some (.int g),
    some (.int b), some (.str e) => some ⟨p, br, r, g, b, e⟩
  | _, _, _, _, _, _ => none

/-- One uppercase hexadecimal digit, as `snprintf` `%X` prints it. -/
def hexDigit (n : Nat) : Char :=
  if n < 10 then Char.ofNat (48 + n) else Char.ofNat (55 + n)

/-- `snprintf(idStr, 9, "%08X", id)`: eight uppercase hexadecimal digits,
zero-padded, most significant first. -/
def hex8 (n : Nat) : String :=
  String.mk ((List.range 8).map fun i => hexDigit (n / 16 ^ (7 - i) % 16))

/-- `getChipId()` (lines 71–78): shift the 64-bit efuse value right by 16
bits, truncate to `uint32_t`, print as `%08X`. -/
def getChipId (chipid : Nat) : String :=
  hex8 ((chipid >>> 16) % 2 ^ 32)

/-- The identity derivation as the spec words it (§3, §4.1): the upper
32 bits of the hardware-unique 64-bit value, hex-encoded, 8 characters. -/
def deriveIdSpec (chipid : Nat) : String :=
  hex8 (chipid / 2 ^ 32 % 2 ^ 32)

/-- The identity derivation as the counterexample forces the spec to be
amended: bits 16–47 of the 64-bit value (shift right 16, truncate to
32 bits), hex-encoded, 8 characters. -/
def deriveIdBits16to47 (chipid : Nat) : String :=
  hex8 (chipid / 2 ^ 16 % 2 ^ 32)

/-- An RGB pixel color. -/
structure RGB where
  r : Nat
  g : Nat
  b : Nat
deriving DecidableEq, Repr

/-- FastLED `CRGB::Red`. -/
def crgbRed : RGB := ⟨255, 0, 0⟩

/-- FastLED `CRGB::White`. -/
def crgbWhite : RGB := ⟨255, 255, 255⟩

/-- FastLED `CRGB::Blue`. -/
def crgbBlue : RGB := ⟨0, 0, 255⟩

/-- `int section = NUM_LEDS / 3;` (line 250). -/
def usaSection : Nat := NUM_LEDS / 3

/-- The color `effectUSA` (lines 249–259) assigns to pixel `i` before the
shimmer fade: red below `section`, white below `section * 2`, blue above. -/
def effectUSAColor (i : Nat) : RGB :=
  if i < usaSection then crgbRed
  else if i < usaSection * 2 then crgbWhite
  else crgbBlue

/-- The whole firmware state the control loop and command path touch. -/
structure Sys where
  dev : DeviceState
  fx : EffectState
deriving DecidableEq, Repr

/-- The state at the end of `setup()`. -/
def bootSys : Sys := ⟨bootState, bootFx⟩

/-- Delivering one MQTT message (or one undecodable payload) to
`processCommand`. -/
def cmdSys (doc? : Option JsonVal) (s : Sys) : Sys :=
  let r := processCommand doc? s.dev s.fx
  ⟨r.state, r.fx⟩

/-- The effect-tick part of one `loop()` iteration: `runEffect()` guarded by
power and a non-`"none"` effect (lines 568–570). -/
def tickSys (s : Sys) : Sys :=
  if s.dev.powerOn && !(s.dev.currentEffect == "none") then
    ⟨s.dev, (runEffectStep s.dev.currentEffect s.fx).fx⟩
  else s

/-- Iterated effect ticks. -/
def tickIter : Nat → Sys → Sys
  | 0, s => s
  | n + 1, s => tickIter n (tickSys s)

/-- One atomic step of the firmware: a command delivery or one loop
iteration's effect tick (the two writers of the shared globals). -/
inductive SysStep : Sys → Sys → Prop where
  | cmd (doc? : Option JsonVal) (s : Sys) : SysStep s (cmdSys doc? s)
  | tick (s : Sys) : SysStep s (tickSys s)

/-- States reachable from boot by any interleaving of commands and ticks. -/
def Reachable (s : Sys) : Prop :=
  Relation.ReflTransGen SysStep bootSys s

/-- The command `{"effect":"cylon"}`. -/
def cylonDoc : JsonVal := .obj [("effect", .str "cylon")]

/-- The state after: boot, select cylon, run 199 ticks (the scanner reaches
the far end and the direction cursor flips to `-1`), select cylon again
(which resets the position cursor to 0 but not the direction cursor), and
run one more tick. -/
def cylonBugSys : Sys :=
  tickSys (cmdSys (some cylonDoc) (tickIter 199 (cmdSys (some cylonDoc) bootSys)))

/-- The device state while the cylon effect is selected from boot. -/
def cylonDev : DeviceState := { bootState with currentEffect := "cylon" }

/-- The spec's bounds on the numeric device-state fields (§3):
brightness in [0,100], each color channel in [0,255]. -/
def stateBounds (s : DeviceState) : Prop :=
  0 ≤ s.currentBrightness ∧ s.currentBrightness ≤ 100 ∧
  0 ≤ s.currentR ∧ s.currentR ≤ 255 ∧
  0 ≤ s.currentG ∧ s.currentG ≤ 255 ∧
  0 ≤ s.currentB ∧ s.currentB ≤ 255

instance (s : DeviceState) : Decidable (stateBounds s) := by
  unfold stateBounds; infer_instance

/-- The JSON value is an integer within the given bounds. -/
def isIntIn (v : JsonVal) (lo hi : Int) : Bool :=
  match v with
  | .int n => decide (lo ≤ n ∧ n ≤ hi)
  | _ => false

/-- A valid command (§6): if `brightness` is present it is an integer in
[0,100]; each present `color` channel is an integer in [0,255]. -/
def validCmd (doc : JsonVal) : Bool :=
  (!containsKey doc "brightness" || isIntIn (getKeyD doc "brightness") 0 100) &&
  (!containsKey (getKeyD doc "color") "r" ||
    isIntIn (getKeyD (getKeyD doc "color") "r") 0 255) &&
  (!containsKey (getKeyD doc "color") "g" ||
    isIntIn (getKeyD (getKeyD doc "color") "g") 0 255) &&
  (!containsKey (getKeyD doc "color") "b" ||
    isIntIn (getKeyD (getKeyD doc "color") "b") 0 255)

/-- Processing a sequence of decoded commands in order. -/
def applyCommands : List JsonVal → DeviceState → EffectState →
    DeviceState × EffectState
  | [], s, es => (s, es)
  | d :: rest, s, es =>
    let r := processCommand (some d) s es
    applyCommands rest r.state r.fx

/-! ## Helper lemmas -/

theorem processCommand_state (doc : JsonVal) (s : DeviceState) (es : EffectState) :
    (processCommand (some doc) s es).state =
      (applyEffect doc
        (applyBrightness doc (applyColor doc (applyPower doc s).1).1).1 es).1 := rfl

theorem processCommand_fx (doc : JsonVal) (s : DeviceState) (es : EffectState) :
    (processCommand (some doc) s es).fx =
      (applyEffect doc
        (applyBrightness doc (applyColor doc (applyPower doc s).1).1).1 es).2.1 := rfl

theorem applyPower_keeps (doc : JsonVal) (s : DeviceState) :
    (applyPower doc s).1.currentBrightness = s.currentBrightness ∧
    (applyPower doc s).1.currentR = s.currentR ∧
    (applyPower doc s).1.currentG = s.currentG ∧
    (applyPower doc s).1.currentB = s.currentB ∧
    (applyPower doc s).1.currentEffect = s.currentEffect := by
  unfold applyPower; split <;> exact ⟨rfl, rfl, rfl, rfl, rfl⟩

theorem applyPower_absent (doc : JsonVal) (s : DeviceState)
    (h : containsKey doc "power" = false) : (applyPower doc s).1 = s := by
  simp [applyPower, h]

theorem applyColor_keeps (doc : JsonVal) (s : DeviceState) :
    (applyColor doc s).1.powerOn = s.powerOn ∧
    (applyColor doc s).1.currentBrightness = s.currentBrightness ∧
    (applyColor doc s).1.currentEffect = s.currentEffect := by
  unfold applyColor; split <;> exact ⟨rfl, rfl, rfl⟩

theorem applyColor_r (doc : JsonVal) (s : DeviceState) :
    (applyColor doc s).1.currentR =
      if containsKey doc "color" then
        jsonIntOr (getKey (getKeyD doc "color") "r") s.currentR
      else s.currentR := by
  unfold applyColor; split <;> simp_all

theorem applyColor_g (doc : JsonVal) (s : DeviceState) :
    (applyColor doc s).1.currentG =
      if containsKey doc "color" then
        jsonIntOr (getKey (getKeyD doc "color") "g") s.currentG
      else s.currentG := by
  unfold applyColor; split <;> simp_all

theorem applyColor_b (doc : JsonVal) (s : DeviceState) :
    (applyColor doc s).1.currentB =
      if containsKey doc "color" then
        jsonIntOr (getKey (getKeyD doc "color") "b") s.currentB
      else s.currentB := by
  unfold applyColor; split <;> simp_all

theorem applyBrightness_keeps (doc : JsonVal) (s : DeviceState) :
    (applyBrightness doc s).1.powerOn = s.powerOn ∧
    (applyBrightness doc s).1.currentR = s.currentR ∧
    (applyBrightness doc s).1.currentG = s.currentG ∧
    (applyBrightness doc s).1.currentB = s.currentB ∧
    (applyBrightness doc s).1.currentEffect = s.currentEffect := by
  unfold applyBrightness; split <;> exact ⟨rfl, rfl, rfl, rfl, rfl⟩

theorem applyBrightness_val (doc : JsonVal) (s : DeviceState) :
    (applyBrightness doc s).1.currentBrightness =
      if containsKey doc "brightness" then jsonAsInt (getKeyD doc "brightness")
      else s.currentBrightness := by
  unfold applyBrightness; split <;> simp_all

theorem applyEffect_keeps (doc : JsonVal) (s : DeviceState) (es : EffectState) :
    (applyEffect doc s es).1.powerOn = s.powerOn ∧
    (applyEffect doc s es).1.currentBrightness = s.currentBrightness ∧
    (applyEffect doc s es).1.currentR = s.currentR ∧
    (applyEffect doc s es).1.currentG = s.currentG ∧
    (applyEffect doc s es).1.currentB = s.currentB := by
  unfold applyEffect; split <;> exact ⟨rfl, rfl, rfl, rfl, rfl⟩

theorem applyEffect_absent (doc : JsonVal) (s : DeviceState) (es : EffectState)
    (h : containsKey doc "effect" = false) :
    (applyEffect doc s es).1 = s ∧ (applyEffect doc s es).2.1 = es := by
  simp [applyEffect, h]

theorem applyPower_val (doc : JsonVal) (s : DeviceState) :
    (applyPower doc s).1.powerOn =
      if containsKey doc "power" then jsonAsBool (getKeyD doc "power")
      else s.powerOn := by
  unfold applyPower; split <;> simp_all

theorem applyEffect_effect_val (doc : JsonVal) (s : DeviceState) (es : EffectState) :
    (applyEffect doc s es).1.currentEffect =
      if containsKey doc "effect" then jsonAsString (getKeyD doc "effect")
      else s.currentEffect := by
  unfold applyEffect; split <;> simp_all

theorem processCommand_power_val (doc : JsonVal) (s : DeviceState) (es : EffectState) :
    (processCommand (some doc) s es).state.powerOn =
      if containsKey doc "power" then jsonAsBool (getKeyD doc "power")
      else s.powerOn := by
  rw [processCommand_state, (applyEffect_keeps _ _ _).1,
      (applyBrightness_keeps _ _).1, (applyColor_keeps _ _).1, applyPower_val]

theorem processCommand_brightness_val (doc : JsonVal) (s : DeviceState)
    (es : EffectState) :
    (processCommand (some doc) s es).state.currentBrightness =
      if containsKey doc "brightness" then jsonAsInt (getKeyD doc "brightness")
      else s.currentBrightness := by
  rw [processCommand_state, (applyEffect_keeps _ _ _).2.1, applyBrightness_val,
      (applyColor_keeps _ _).2.1, (applyPower_keeps _ _).1]

theorem processCommand_r_val (doc : JsonVal) (s : DeviceState) (es : EffectState) :
    (processCommand (some doc) s es).state.currentR =
      if containsKey doc "color" then
        jsonIntOr (getKey (getKeyD doc "color") "r") s.currentR
      else s.currentR := by
  rw [processCommand_state, (applyEffect_keeps _ _ _).2.2.1,
      (applyBrightness_keeps _ _).2.1, applyColor_r, (applyPower_keeps _ _).2.1]

theorem processCommand_g_val (doc : JsonVal) (s : DeviceState) (es : EffectState) :
    (processCommand (some doc) s es).state.currentG =
      if containsKey doc "color" then
        jsonIntOr (getKey (getKeyD doc "color") "g") s.currentG
      else s.currentG := by
  rw [processCommand_state, (applyEffect_keeps _ _ _).2.2.2.1,
      (applyBrightness_keeps _ _).2.2.1, applyColor_g, (applyPower_keeps _ _).2.2.1]

theorem processCommand_b_val (doc : JsonVal) (s : DeviceState) (es : EffectState) :
    (processCommand (some doc) s es).state.currentB =
      if containsKey doc "color" then
        jsonIntOr (getKey (getKeyD doc "color") "b") s.currentB
      else s.currentB := by
  rw [processCommand_state, (applyEffect_keeps _ _ _).2.2.2.2,
      (applyBrightness_keeps _ _).2.2.2.1, applyColor_b,
      (applyPower_keeps _ _).2.2.2.1]

theorem processCommand_effect_val (doc : JsonVal) (s : DeviceState)
    (es : EffectState) :
    (processCommand (some doc) s es).state.currentEffect =
      if containsKey doc "effect" then jsonAsString (getKeyD doc "effect")
      else s.currentEffect := by
  rw [processCommand_state, applyEffect_effect_val,
      (applyBrightness_keeps _ _).2.2.2.2, (applyColor_keeps _ _).2.2,
      (applyPower_keeps _ _).2.2.2.2]

theorem processCommand_fx_val (doc : JsonVal) (s : DeviceState) (es : EffectState) :
    (processCommand (some doc) s es).fx =
      if containsKey doc "effect" then { es with effectHue := 0, effectPos := 0 }
      else es := by
  rw [processCommand_fx]; unfold applyEffect; split <;> rfl

theorem processCommand_events (doc : JsonVal) (s : DeviceState) (es : EffectState) :
    (processCommand (some doc) s es).events =
      (applyPower doc s).2 ++ (applyColor doc (applyPower doc s).1).2 ++
      (applyBrightness doc (applyColor doc (applyPower doc s).1).1).2 ++
      (applyEffect doc
        (applyBrightness doc (applyColor doc (applyPower doc s).1).1).1 es).2.2 :=
  rfl

theorem applyEffect_present (doc : JsonVal) (s : DeviceState) (es : EffectState)
    (hk : containsKey doc "effect" = true) :
    applyEffect doc s es =
      ({ s with currentEffect := jsonAsString (getKeyD doc "effect") },
       { es with effectHue := 0, effectPos := 0 },
       if jsonAsString (getKeyD doc "effect") = "none" then
         [updateLedsEvent
           { s with currentEffect := jsonAsString (getKeyD doc "effect") }]
       else []) := by
  unfold applyEffect; simp [hk]

theorem frame_notin_events (doc? : Option JsonVal) (s : DeviceState)
    (es : EffectState) (n : String) :
    REvent.frame n ∉ (processCommand doc? s es).events := by
  cases doc? with
  | none => simp [processCommand]
  | some doc =>
    rw [processCommand_events]
    simp only [List.mem_append, not_or]
    refine ⟨⟨⟨?_, ?_⟩, ?_⟩, ?_⟩
    · unfold applyPower; split
      · simp only []; split <;> simp [updateLedsEvent]
      · simp
    · unfold applyColor; split <;> simp [updateLedsEvent]
    · unfold applyBrightness; split <;> simp [updateLedsEvent]
    · unfold applyEffect; split
      · simp only []; split <;> simp [updateLedsEvent]
      · simp

theorem loopTick_ranEffect (r : CmdResult) :
    (loopTick r).ranEffect =
      ((loopTick r).state.powerOn &&
        !((loopTick r).state.currentEffect == "none")) := by
  unfold loopTick; split <;> simp_all

theorem loopTick_state (r : CmdResult) : (loopTick r).state = r.state := by
  unfold loopTick; split <;> rfl

theorem loopTick_events_off (r : CmdResult) (hp : r.state.powerOn = false) :
    (loopTick r).events = r.events := by
  unfold loopTick; rw [hp]; simp

theorem containsKey_false (v : JsonVal) (k : String)
    (h : containsKey v k = false) : getKey v k = none := by
  cases hx : getKey v k with
  | none => rfl
  | some x => exact absurd h (by simp [containsKey, hx])

theorem valid_field_bound (v : JsonVal) (lo hi : Int)
    (h : isIntIn v lo hi = true) : lo ≤ jsonAsInt v ∧ jsonAsInt v ≤ hi := by
  cases v with
  | int n => simp only [isIntIn, decide_eq_true_eq] at h; exact h
  | null => simp [isIntIn] at h
  | bool b => simp [isIntIn] at h
  | str t => simp [isIntIn] at h
  | obj l => simp [isIntIn] at h

theorem jsonIntOr_bound (v : Option JsonVal) (d lo hi : Int)
    (hv : (!v.isSome || isIntIn (v.getD .null) lo hi) = true)
    (hd : lo ≤ d ∧ d ≤ hi) : lo ≤ jsonIntOr v d ∧ jsonIntOr v d ≤ hi := by
  cases v with
  | none => exact hd
  | some x =>
    simp only [Option.isSome_some, Bool.not_true, Bool.false_or,
      Option.getD_some] at hv
    cases x with
    | int n => simp only [isIntIn, decide_eq_true_eq] at hv; exact hv
    | null => simp [isIntIn] at hv
    | bool b => simp [isIntIn] at hv
    | str t => simp [isIntIn] at hv
    | obj l => simp [isIntIn] at hv

theorem processCommand_bounds (doc : JsonVal) (s : DeviceState) (es : EffectState)
    (hv : validCmd doc = true) (hs : stateBounds s) :
    stateBounds (processCommand (some doc) s es).state := by
  simp only [validCmd, Bool.and_eq_true] at hv
  obtain ⟨⟨⟨hbr, hcr⟩, hcg⟩, hcb⟩ := hv
  obtain ⟨h1, h2, h3, h4, h5, h6, h7, h8⟩ := hs
  have Hbr : 0 ≤ (processCommand (some doc) s es).state.currentBrightness ∧
      (processCommand (some doc) s es).state.currentBrightness ≤ 100 := by
    rw [processCommand_brightness_val]
    split
    · next hk => simp only [hk, Bool.not_true, Bool.false_or] at hbr
                 exact valid_field_bound _ _ _ hbr
    · exact ⟨h1, h2⟩
  have Hr : 0 ≤ (processCommand (some doc) s es).state.currentR ∧
      (processCommand (some doc) s es).state.currentR ≤ 255 := by
    rw [processCommand_r_val]
    split
    · exact jsonIntOr_bound _ _ _ _ hcr ⟨h3, h4⟩
    · exact ⟨h3, h4⟩
  have Hg : 0 ≤ (processCommand (some doc) s es).state.currentG ∧
      (processCommand (some doc) s es).state.currentG ≤ 255 := by
    rw [processCommand_g_val]
    split
    · exact jsonIntOr_bound _ _ _ _ hcg ⟨h5, h6⟩
    · exact ⟨h5, h6⟩
  have Hb : 0 ≤ (processCommand (some doc) s es).state.currentB ∧
      (processCommand (some doc) s es).state.currentB ≤ 255 := by
    rw [processCommand_b_val]
    split
    · exact jsonIntOr_bound _ _ _ _ hcb ⟨h7, h8⟩
    · exact ⟨h7, h8⟩
  exact ⟨Hbr.1, Hbr.2, Hr.1, Hr.2, Hg.1, Hg.2, Hb.1, Hb.2⟩

/-! ## Claims -/

/-- C1: merge semantics of `processCommand` — every `DeviceState` field
whose key is absent from a successfully decoded payload keeps its
pre-command value; in particular a `color` object carrying only a subset of
the `r`/`g`/`b` keys leaves the untouched channels unchanged. -/
theorem c1_merge_semantics (doc : JsonVal) (s : DeviceState) (es : EffectState) :
    (containsKey doc "power" = false →
      (processCommand (some doc) s es).state.powerOn = s.powerOn) ∧
    (containsKey doc "brightness" = false →
      (processCommand (some doc) s es).state.currentBrightness =
        s.currentBrightness) ∧
    (containsKey doc "effect" = false →
      (processCommand (some doc) s es).state.currentEffect = s.currentEffect) ∧
    (containsKey (getKeyD doc "color") "r" = false →
      (processCommand (some doc) s es).state.currentR = s.currentR) ∧
    (containsKey (getKeyD doc "color") "g" = false →
      (processCommand (some doc) s es).state.currentG = s.currentG) ∧
    (containsKey (getKeyD doc "color") "b" = false →
      (processCommand (some doc) s es).state.currentB = s.currentB) := by
  refine ⟨fun h => ?_, fun h => ?_, fun h => ?_, fun h => ?_, fun h => ?_,
    fun h => ?_⟩
  · rw [processCommand_power_val]; simp [h]
  · rw [processCommand_brightness_val]; simp [h]
  · rw [processCommand_effect_val]; simp [h]
  · rw [processCommand_r_val, containsKey_false _ _ h]
    split <;> rfl
  · rw [processCommand_g_val, containsKey_false _ _ h]
    split <;> rfl
  · rw [processCommand_b_val, containsKey_false _ _ h]
    split <;> rfl

theorem c1_witness :
    (processCommand
        (some (JsonVal.obj [("color", JsonVal.obj [("r", JsonVal.int 10)])]))
        bootState bootFx).state.powerOn = bootState.powerOn ∧
    (processCommand
        (some (JsonVal.obj [("color", JsonVal.obj [("r", JsonVal.int 10)])]))
        bootState bootFx).state.currentG = bootState.currentG ∧
    (processCommand
        (some (JsonVal.obj [("color", JsonVal.obj [("r", JsonVal.int 10)])]))
        bootState bootFx).state.currentB = bootState.currentB :=
  ⟨(c1_merge_semantics _ _ _).1 (by decide),
   (c1_merge_semantics _ _ _).2.2.2.2.1 (by decide),
   (c1_merge_semantics _ _ _).2.2.2.2.2 (by decide)⟩

/-- C3: starting from the boot defaults (brightness 100, color 255/255/255),
after any sequence of valid commands (present brightness an integer in
[0,100], present color channels integers in [0,255]) the device state keeps
brightness in [0,100] and every color channel in [0,255]. -/
theorem c3_bounds_invariant (docs : List JsonVal)
    (hv : ∀ d ∈ docs, validCmd d = true) :
    stateBounds (applyCommands docs bootState bootFx).1 := by
  have main : ∀ (l : List JsonVal) (s : DeviceState) (es : EffectState),
      (∀ d ∈ l, validCmd d = true) → stateBounds s →
      stateBounds (applyCommands l s es).1 := by
    intro l
    induction l with
    | nil => intro s es _ hs; exact hs
    | cons d rest ih =>
      intro s es hvl hs
      exact ih _ _ (fun x hx => hvl x (by simp [hx]))
        (processCommand_bounds d s es (hvl d (by simp)) hs)
  exact main docs bootState bootFx hv (by decide)

theorem c3_witness :
    stateBounds (applyCommands
      [JsonVal.obj [("brightness", JsonVal.int 55)],
       JsonVal.obj [("color", JsonVal.obj [("r", JsonVal.int 0),
                                           ("b", JsonVal.int 222)])],
       JsonVal.obj [("power", JsonVal.bool false)]]
      bootState bootFx).1 :=
  c3_bounds_invariant _ (by decide)

/-- C2: a payload that fails to decode as a structured document leaves every
`DeviceState` field (and the effect cursors) unchanged, performs no render,
and returns before publishing — `processCommand` on a parse error is the
identity with no observable actions. -/
theorem c2_decode_failure_is_noop (s : DeviceState) (es : EffectState) :
    processCommand none s es = ⟨s, es, [], false⟩ := rfl

/-- C7 counterexample: `getChipId` does not return the upper 32 bits of the
64-bit value. At `chipid = 2 ^ 32` the code prints `"00010000"`
(bits 16–47) while the spec's upper-32-bits reading gives `"00000001"`. -/
theorem c7_counterexample : getChipId (2 ^ 32) ≠ deriveIdSpec (2 ^ 32) := by
  decide

/-- C7 amended: the identity derivation is a pure function of the 64-bit
value returning bits 16–47 (the value shifted right by 16 and truncated to
32 bits) — not the upper 32 bits — hex-encoded in uppercase as an
8-character string. -/
theorem c7_amended_id (chipid : Nat) :
    getChipId chipid = deriveIdBits16to47 chipid ∧
    (getChipId chipid).length = 8 ∧
    ((getChipId chipid).toList.all fun ch =>
      ch.isDigit || (decide ('A' ≤ ch) && decide (ch ≤ 'F'))) = true := by
  have hd : ∀ m < 16, ((hexDigit m).isDigit ||
      (decide ('A' ≤ hexDigit m) && decide (hexDigit m ≤ 'F'))) = true := by
    decide
  refine ⟨?_, ?_, ?_⟩
  · unfold getChipId deriveIdBits16to47
    rw [Nat.shiftRight_eq_div_pow]
  · rfl
  · show (((List.range 8).map fun i =>
        hexDigit ((chipid >>> 16) % 2 ^ 32 / 16 ^ (7 - i) % 16)).all _) = true
    rw [List.all_eq_true]
    intro ch hch
    rw [List.mem_map] at hch
    obtain ⟨i, _, rfl⟩ := hch
    exact hd _ (Nat.mod_lt _ (by norm_num))

/-- C4: a decoded command carrying an `effect` key (a string value)
overwrites `DeviceState.effect` with that string and resets the shared
animation cursors (`effectHue`, `effectPos`) to 0 regardless of the previous
state; when the new value is `"none"` it additionally performs an immediate
solid render of the current color and brightness. -/
theorem c4_effect_command (doc : JsonVal) (s : DeviceState) (es : EffectState)
    (v : String) (h : getKey doc "effect" = some (.str v)) :
    (processCommand (some doc) s es).state.currentEffect = v ∧
    (processCommand (some doc) s es).fx.effectHue = 0 ∧
    (processCommand (some doc) s es).fx.effectPos = 0 ∧
    (v = "none" →
      updateLedsEvent (processCommand (some doc) s es).state ∈
        (processCommand (some doc) s es).events) := by
  have hck : containsKey doc "effect" = true := by simp [containsKey, h]
  have hgd : getKeyD doc "effect" = JsonVal.str v := by simp [getKeyD, h]
  refine ⟨?_, ?_, ?_, fun hv => ?_⟩
  · rw [processCommand_effect_val]; simp [hck, hgd, jsonAsString]
  · rw [processCommand_fx_val]; simp [hck]
  · rw [processCommand_fx_val]; simp [hck]
  · rw [processCommand_state, processCommand_events,
        applyEffect_present _ _ _ hck]
    simp [hgd, jsonAsString, hv]

theorem c4_witness :
    (processCommand (some (JsonVal.obj [("effect", JsonVal.str "none")]))
      ⟨true, 42, 1, 2, 3, "rainbow"⟩ ⟨7, 5, -1, true⟩).state.currentEffect =
        "none" ∧
    (processCommand (some (JsonVal.obj [("effect", JsonVal.str "none")]))
      ⟨true, 42, 1, 2, 3, "rainbow"⟩ ⟨7, 5, -1, true⟩).fx.effectHue = 0 ∧
    (processCommand (some (JsonVal.obj [("effect", JsonVal.str "none")]))
      ⟨true, 42, 1, 2, 3, "rainbow"⟩ ⟨7, 5, -1, true⟩).fx.effectPos = 0 ∧
    updateLedsEvent (processCommand
        (some (JsonVal.obj [("effect", JsonVal.str "none")]))
        ⟨true, 42, 1, 2, 3, "rainbow"⟩ ⟨7, 5, -1, true⟩).state ∈
      (processCommand (some (JsonVal.obj [("effect", JsonVal.str "none")]))
        ⟨true, 42, 1, 2, 3, "rainbow"⟩ ⟨7, 5, -1, true⟩).events :=
  have H := c4_effect_command (JsonVal.obj [("effect", JsonVal.str "none")])
    ⟨true, 42, 1, 2, 3, "rainbow"⟩ ⟨7, 5, -1, true⟩ "none" rfl
  ⟨H.1, H.2.1, H.2.2.1, H.2.2.2 rfl⟩

/-- C5: in every control-loop iteration, `runEffect` is invoked if and only
if the power is on and the current effect is not `"none"`; in particular
while the power is off no effect frame is rendered. -/
theorem c5_tick_guard (msg? : Option (Option JsonVal)) (s : DeviceState)
    (es : EffectState) :
    ((loopStep msg? s es).ranEffect =
      ((loopStep msg? s es).state.powerOn &&
        !((loopStep msg? s es).state.currentEffect == "none"))) ∧
    ((loopStep msg? s es).state.powerOn = false →
      ∀ n, REvent.frame n ∉ (loopStep msg? s es).events) := by
  constructor
  · exact loopTick_ranEffect _
  · intro hp n hn
    unfold loopStep at hp hn
    rw [loopTick_state] at hp
    rw [loopTick_events_off _ hp] at hn
    cases msg? with
    | none => simp at hn
    | some doc? => exact frame_notin_events doc? s es n hn

theorem c5_witness :
    REvent.frame "rainbow" ∉
      (loopStep (some (some (JsonVal.obj [("power", JsonVal.bool false)])))
        ⟨true, 100, 255, 255, 255, "rainbow"⟩ bootFx).events :=
  (c5_tick_guard _ _ _).2 (by decide) "rainbow"

/-- C6: an effect name outside the fixed catalog is accepted into
`DeviceState.effect` without validation, and an Effect Engine tick
dispatched on it is a complete no-op: no frame is drawn and the
cursors/toggles are untouched. -/
theorem c6_unknown_effect (name : String) (s : DeviceState) (es : EffectState)
    (h : name ∉ specEffectCatalog) :
    runEffectStep name es = ⟨es, false, 0⟩ ∧
    (processCommand (some (JsonVal.obj [("effect", JsonVal.str name)])) s
        es).state.currentEffect = name := by
  constructor
  · simp only [specEffectCatalog, effectCatalog, List.mem_cons,
      List.not_mem_nil, or_false, not_or] at h
    obtain ⟨h0, h1, h2, h3, h4, h5, h6, h7, h8, h9, h10, h11, h12, h13⟩ := h
    simp [runEffectStep, h1, h2, h3, h4, h5, h6, h7, h8, h9, h10, h11, h12, h13]
  · rw [processCommand_effect_val]
    simp [containsKey, getKey, jsonLookup, getKeyD, jsonAsString]

theorem c6_witness :
    runEffectStep "plasma" bootFx = ⟨bootFx, false, 0⟩ ∧
    (processCommand (some (JsonVal.obj [("effect", JsonVal.str "plasma")]))
        bootState bootFx).state.currentEffect = "plasma" :=
  c6_unknown_effect "plasma" bootState bootFx (by decide)

/-- C8: encoding a `DeviceState` to the state payload, decoding the payload
back, and re-encoding yields exactly the first payload (round-trip law at
the structured-document level, the firmware's JSON layer being external). -/
theorem c8_state_roundtrip (id : String) (s : DeviceState) :
    (decodeStateDoc (getStateJson id s)).map (getStateJson id) =
      some (getStateJson id s) := rfl

set_option maxRecDepth 4000 in
/-- C9 counterexample: with `NUM_LEDS = 200` the three `usa` bands are not
equal thirds of the strip — the blue band holds 68 pixels, the red band 66,
so the blue band is neither a third of the strip nor equal to the others. -/
theorem c9_counterexample :
    ¬(3 * ((List.range NUM_LEDS).countP fun i =>
        decide (effectUSAColor i = crgbBlue)) = NUM_LEDS ∧
      ((List.range NUM_LEDS).countP fun i =>
        decide (effectUSAColor i = crgbBlue)) =
      ((List.range NUM_LEDS).countP fun i =>
        decide (effectUSAColor i = crgbRed))) := by
  decide

set_option maxRecDepth 4000 in
/-- C9 amended: each `usa` tick colors the strip as three contiguous bands
red / white / blue of `⌊N/3⌋`, `⌊N/3⌋` and `N - 2⌊N/3⌋` pixels; at
`NUM_LEDS = 200` that is pixels 0–65 red, 66–131 white, and 132–199 blue
(66, 66 and 68 pixels — the final band absorbs the remainder, so the bands
are equal only when 3 divides the strip length). -/
theorem c9_amended_bands :
    ((List.range NUM_LEDS).filter fun i =>
        decide (effectUSAColor i = crgbRed)) = List.range' 0 66 ∧
    ((List.range NUM_LEDS).filter fun i =>
        decide (effectUSAColor i = crgbWhite)) = List.range' 66 66 ∧
    ((List.range NUM_LEDS).filter fun i =>
        decide (effectUSAColor i = crgbBlue)) = List.range' 132 68 := by
  decide

theorem runEffectStep_cylon (es : EffectState) :
    runEffectStep "cylon" es = ⟨effectCylonStep es, true, 20⟩ := rfl

theorem tickIter_tail (n : Nat) : ∀ s : Sys,
    tickIter (n + 1) s = tickSys (tickIter n s) := by
  induction n with
  | zero => intro s; rfl
  | succ m ih =>
    intro s
    rw [show tickIter (m + 1 + 1) s = tickIter (m + 1) (tickSys s) from rfl,
        ih, show tickIter (m + 1) s = tickIter m (tickSys s) from rfl]

theorem reachable_cmd (doc? : Option JsonVal) (s : Sys) (h : Reachable s) :
    Reachable (cmdSys doc? s) := h.tail (SysStep.cmd doc? s)

theorem reachable_tick (s : Sys) (h : Reachable s) : Reachable (tickSys s) :=
  h.tail (SysStep.tick s)

theorem reachable_tickIter (n : Nat) : ∀ s : Sys,
    Reachable s → Reachable (tickIter n s) := by
  induction n with
  | zero => intro s h; exact h
  | succ m ih => intro s h; exact ih (tickSys s) (reachable_tick s h)

theorem tickSys_cylon (dev : DeviceState) (es : EffectState)
    (hp : dev.powerOn = true) (he : dev.currentEffect = "cylon") :
    tickSys ⟨dev, es⟩ = ⟨dev, effectCylonStep es⟩ := by
  unfold tickSys
  simp only [hp, he]
  rfl

theorem cylon_tickIter (n : Nat) : ∀ (dev : DeviceState) (es : EffectState),
    dev.powerOn = true → dev.currentEffect = "cylon" →
    es.effectDirection = 1 → 0 ≤ es.effectPos →
    es.effectPos + (n : Int) ≤ 198 →
    tickIter n ⟨dev, es⟩ =
      ⟨dev, { es with effectPos := es.effectPos + (n : Int) }⟩ := by
  induction n with
  | zero =>
    intro dev es _ _ _ _ _
    have h0 : es.effectPos + ((0 : Nat) : Int) = es.effectPos := by
      push_cast; ring
    show (⟨dev, es⟩ : Sys) =
      ⟨dev, { es with effectPos := es.effectPos + ((0 : Nat) : Int) }⟩
    rw [h0]
  | succ m ih =>
    intro dev es hp he hd hpos hbound
    have hnotflip : ¬(es.effectPos + 1 ≥ (NUM_LEDS : Int) - 1 ∨
        es.effectPos + 1 ≤ 0) := by
      simp only [NUM_LEDS]
      push_cast at hbound ⊢
      omega
    have hstep : effectCylonStep es =
        { es with effectPos := es.effectPos + 1 } := by
      unfold effectCylonStep
      simp only [hd]
      rw [if_neg hnotflip]
    have h1 : tickIter (m + 1) ⟨dev, es⟩ =
        tickIter m ⟨dev, { es with effectPos := es.effectPos + 1 }⟩ := by
      rw [show tickIter (m + 1) (⟨dev, es⟩ : Sys) =
            tickIter m (tickSys ⟨dev, es⟩) from rfl,
          tickSys_cylon dev es hp he, hstep]
    have hd' : ({ es with effectPos := es.effectPos + 1 } :
        EffectState).effectDirection = 1 := hd
    have hpos' : (0 : Int) ≤
        ({ es with effectPos := es.effectPos + 1 } : EffectState).effectPos := by
      show (0 : Int) ≤ es.effectPos + 1
      omega
    have hbound' :
        ({ es with effectPos := es.effectPos + 1 } : EffectState).effectPos +
          (m : Int) ≤ 198 := by
      show es.effectPos + 1 + (m : Int) ≤ 198
      push_cast at hbound
      omega
    rw [h1, ih dev { es with effectPos := es.effectPos + 1 } hp he hd' hpos'
      hbound']
    show (⟨dev, { es with effectPos := es.effectPos + 1 + (m : Int) }⟩ : Sys) =
      ⟨dev, { es with effectPos := es.effectPos + ((m + 1 : Nat) : Int) }⟩
    have harith : es.effectPos + 1 + (m : Int) =
        es.effectPos + ((m + 1 : Nat) : Int) := by
      push_cast; ring
    rw [harith]

theorem cylonBugSys_eval : cylonBugSys = ⟨cylonDev, ⟨0, -1, 1, false⟩⟩ := by
  have h1 : cmdSys (some cylonDoc) bootSys = ⟨cylonDev, ⟨0, 0, 1, false⟩⟩ := by
    decide
  have h2 : tickIter 199 (⟨cylonDev, ⟨0, 0, 1, false⟩⟩ : Sys) =
      ⟨cylonDev, ⟨0, 199, -1, false⟩⟩ := by
    rw [tickIter_tail,
        cylon_tickIter 198 cylonDev ⟨0, 0, 1, false⟩ rfl rfl rfl (by norm_num)
          (by norm_num)]
    norm_num
    decide
  have h3 : cmdSys (some cylonDoc) (⟨cylonDev, ⟨0, 199, -1, false⟩⟩ : Sys) =
      ⟨cylonDev, ⟨0, 0, -1, false⟩⟩ := by decide
  have h4 : tickSys (⟨cylonDev, ⟨0, 0, -1, false⟩⟩ : Sys) =
      ⟨cylonDev, ⟨0, -1, 1, false⟩⟩ := by decide
  unfold cylonBugSys
  rw [h1, h2, h3, h4]

/-- C10: FALSIFIED — the claimed bounds safety of the cylon effect fails.
The state reached by: boot, select cylon, 199 ticks (the scanner reaches the
far end, leaving the direction cursor at -1), select cylon again (position
cursor reset to 0, direction cursor left at -1), one tick (position becomes
-1, direction flips) is reachable, has power on and cylon active, and its
very next tick dereferences `leds[effectPos]` at index -1 — outside
`[0, NUM_LEDS - 1]`. -/
theorem c10_cylon_out_of_bounds :
    Reachable cylonBugSys ∧
    cylonBugSys.dev.powerOn = true ∧
    cylonBugSys.dev.currentEffect = "cylon" ∧
    cylonWriteIndex cylonBugSys.fx = -1 ∧
    ¬(0 ≤ cylonWriteIndex cylonBugSys.fx ∧
      cylonWriteIndex cylonBugSys.fx < (NUM_LEDS : Int)) := by
  refine ⟨?_, ?_, ?_, ?_, ?_⟩
  · exact reachable_tick _ (reachable_cmd _ _ (reachable_tickIter 199 _
      (reachable_cmd _ _ Relation.ReflTransGen.refl)))
  · rw [cylonBugSys_eval]; rfl
  · rw [cylonBugSys_eval]; rfl
  · rw [cylonBugSys_eval]; rfl
  · rw [cylonBugSys_eval]; decide
